import Mathlib

/-!
Shallow embedding of `src/column_water_vapor.py` (class `Column_Water_Vapor`),
the expression builder that generates GRASS GIS r.mapcalc formula strings for
atmospheric column water vapor (MSWCVR method).

Python 2 semantics modelled:
* `xrange(m)` on an `Int` argument: the list `[0, 1, ..., m-1]`, empty for `m <= 0`.
* `str([a, b])` on a two-element integer list: `"[a, b]"` (note the space after the comma).
* `sep.join(list)` on strings: terms interleaved with the separator, `""` for the
  empty list.
* `'{x}'.format`-style interpolation of the float literals `-9.674`, `0.653`,
  `9.087` renders them as the decimal strings `"-9.674"`, `"0.653"`, `"9.087"`.
* the truthiness test `if not mean_ti` on a string is true exactly for `""`.
-/

namespace CWV

/-- Python 2 `xrange(m)` for an integer argument: `[0, ..., m-1]`, empty for `m ≤ 0`. -/
def xrange (m : Int) : List Int :=
  (List.range m.toNat).map (fun k : Nat => (k : Int))

/-- Python `str([a, b])` for a two-element integer list (the source builds
offsets as `[col-1, row-1]`): renders as `"[a, b]"` with a space after the comma. -/
def pyStrPair (p : Int × Int) : String :=
  "[" ++ toString p.1 ++ ", " ++ toString p.2 ++ "]"

/-- Python `sep.join(l)`: the elements of `l` interleaved with `sep`. -/
def pyJoin (sep : String) : List String → String
  | [] => ""
  | t :: ts => ts.foldl (fun acc x => acc ++ sep ++ x) t

/-- The decimal rendering of the model constant `c0 = -9.674` as interpolated by
`str.format` in the source. -/
def c0_str : String := "-9.674"

/-- The decimal rendering of the model constant `c1 = 0.653`. -/
def c1_str : String := "0.653"

/-- The decimal rendering of the model constant `c2 = 9.087`. -/
def c2_str : String := "9.087"

/-- Module-level global `DUMMY_Ti_MEAN = 'Mean_Ti'`. -/
def DUMMY_Ti_MEAN : String := "Mean_Ti"

/-- Module-level global `DUMMY_Tj_MEAN = 'Mean_Tj'`. -/
def DUMMY_Tj_MEAN : String := "Mean_Tj"

/-- Module-level global `DUMMY_Rji = 'Ratio_ji'`. -/
def DUMMY_Rji : String := "Ratio_ji"

/-- `Column_Water_Vapor._derive_adjacent_pixels`:
`[[col-1, row-1] for col in xrange(self.window_width) for row in xrange(self.window_height)]`
(`col` is the outer loop, `row` the inner loop; both bounds equal the window size). -/
def derive_adjacent_pixels (window_width window_height : Int) : List (Int × Int) :=
  (xrange window_width).flatMap
    (fun col => (xrange window_height).map (fun row => (col - 1, row - 1)))

/-- `Column_Water_Vapor._derive_modifiers`:
`[tx + str(pixel) for pixel in self.adjacent_pixels]`. -/
def derive_modifiers (tx : String) (adjacent_pixels : List (Int × Int)) : List String :=
  adjacent_pixels.map (fun pixel => tx ++ pyStrPair pixel)

/-- `Column_Water_Vapor._mean_tirs_expression`:
`'({Tx_sum}) / {Tx_length}'` with `Tx_sum = ' + '.join(modifiers)` and
`Tx_length = len(modifiers)`. -/
def mean_tirs_expression (modifiers : List String) : String :=
  "(" ++ pyJoin " + " modifiers ++ ") / " ++ toString modifiers.length

/-- `Column_Water_Vapor._numerator_for_ratio`: the empty string is falsy in
Python, so `if not mean_ti: mean_ti = 'Ti_mean'` replaces an empty argument;
then each zipped pair of modifiers is formatted through
`'({Ti} - {Tim}) * ({Tj} - {Tjm})'` and the terms are joined with `' + '`. -/
def numerator_for_ratio (modifiers : List (String × String))
    (mean_ti mean_tj : String) : String :=
  let mti := if mean_ti = "" then "Ti_mean" else mean_ti
  let mtj := if mean_tj = "" then "Tj_mean" else mean_tj
  pyJoin " + "
    (modifiers.map (fun p =>
      "(" ++ p.1 ++ " - " ++ mti ++ ") * (" ++ p.2 ++ " - " ++ mtj ++ ")"))

/-- `Column_Water_Vapor._denominator_for_ratio`: each ti-modifier is formatted
through `'({Ti} - {Tim})^2'` and the terms are joined with `' + '`; an empty
`mean_ti` is replaced by `'Ti_mean'`. -/
def denominator_for_ratio (modifiers_ti : List String) (mean_ti : String) : String :=
  let mti := if mean_ti = "" then "Ti_mean" else mean_ti
  pyJoin " + "
    (modifiers_ti.map (fun m => "(" ++ m ++ " - " ++ mti ++ ")^2"))

/-- `Column_Water_Vapor._ratio_ji_expression`: numerator and denominator built
with the dummy mean placeholders, combined through `'{numerator} / {denominator}'`
(no parentheses are added around either part). -/
def ratio_ji_expr (modifiers : List (String × String)) (modifiers_ti : List String) :
    String :=
  numerator_for_ratio modifiers DUMMY_Ti_MEAN DUMMY_Tj_MEAN
    ++ " / " ++ denominator_for_ratio modifiers_ti DUMMY_Ti_MEAN

/-- `Column_Water_Vapor._column_water_vapor_expression`:
`'({c0}) + ({c1}) * ({Rji}) + ({c2}) * ({Rji})^2'` with `Rji = DUMMY_Rji`. -/
def column_water_vapor_expr : String :=
  "(" ++ c0_str ++ ") + (" ++ c1_str ++ ") * (" ++ DUMMY_Rji ++ ") + ("
    ++ c2_str ++ ") * (" ++ DUMMY_Rji ++ ")^2"

/-- The state of a `Column_Water_Vapor` instance after `__init__`: all derived
attributes are computed eagerly at construction, in the source's order. -/
structure Column_Water_Vapor where
  window_size : Int
  ti : String
  tj : String
  adjacent_pixels : List (Int × Int)
  modifiers_ti : List String
  modifiers_tj : List String
  modifiers : List (String × String)
  mean_ti_expression : String
  mean_tj_expression : String
  ratio_ji_expression : String
  column_water_vapor_expression : String

/-- `Column_Water_Vapor.__init__(window_size, ti, tj)`: performs no validation
of any argument; derives the adjacent-pixel offsets, the modifiers for both
bands, their zip, the two mean expressions, the ratio expression and the final
symbolic CWV expression. -/
def init (window_size : Int) (ti tj : String) : Column_Water_Vapor :=
  let adjacent_pixels := derive_adjacent_pixels window_size window_size
  let modifiers_ti := derive_modifiers ti adjacent_pixels
  let modifiers_tj := derive_modifiers tj adjacent_pixels
  let modifiers := modifiers_ti.zip modifiers_tj
  { window_size := window_size
    ti := ti
    tj := tj
    adjacent_pixels := adjacent_pixels
    modifiers_ti := modifiers_ti
    modifiers_tj := modifiers_tj
    modifiers := modifiers
    mean_ti_expression := mean_tirs_expression modifiers_ti
    mean_tj_expression := mean_tirs_expression modifiers_tj
    ratio_ji_expression := ratio_ji_expr modifiers modifiers_ti
    column_water_vapor_expression := column_water_vapor_expr }

/-- `Column_Water_Vapor._build_cwv_mapcalc`: re-derives the modifiers, builds
the two mean texts, passes those full texts (not the names `ti_mean`/`tj_mean`)
to `_numerator_for_ratio` and `_denominator_for_ratio`, and interpolates
everything into the `eval(...)` template. The Python template pieces
`'\ \n  '` are a literal backslash, a space, a newline and two spaces. -/
def build_cwv_mapcalc (window_size : Int) (ti tj : String) : String :=
  let adjacent_pixels := derive_adjacent_pixels window_size window_size
  let modifiers_ti := derive_modifiers ti adjacent_pixels
  let ti_sum := pyJoin " + " modifiers_ti
  let ti_length := modifiers_ti.length
  let ti_mean := "(" ++ ti_sum ++ ") / " ++ toString ti_length
  let modifiers_tj := derive_modifiers tj adjacent_pixels
  let tj_sum := pyJoin " + " modifiers_tj
  let tj_length := modifiers_tj.length
  let tj_mean := "(" ++ tj_sum ++ ") / " ++ toString tj_length
  let numerator := numerator_for_ratio (modifiers_ti.zip modifiers_tj) ti_mean tj_mean
  let denominator := denominator_for_ratio modifiers_ti ti_mean
  "eval(ti_mean = " ++ ti_mean ++ ",\\ \n  tj_mean = " ++ tj_mean
    ++ ",\\ \n  numerator = " ++ numerator
    ++ ",\\ \n  denominator = " ++ denominator
    ++ ",\\ \n  rji = numerator / denominator,\\ \n  "
    ++ c0_str ++ " + " ++ c1_str ++ " * rji + " ++ c2_str ++ " * rji^2)"

/-- Whether the character list `p` is an initial segment of `l`. -/
def leadsWith : List Char → List Char → Bool
  | [], _ => true
  | _ :: _, [] => false
  | p :: ps, c :: cs => (p == c) && leadsWith ps cs

/-- Number of positions of `l` at which the pattern `p` starts. -/
def occCount (p : List Char) : List Char → Nat
  | [] => 0
  | c :: cs => (if leadsWith p (c :: cs) then 1 else 0) + occCount p cs

/-- Number of positions of the string `s` at which the pattern `pat` starts. -/
def countOccs (pat s : String) : Nat :=
  occCount pat.data s.data

end CWV

namespace CWV

/-- Claim C1 counterexample: with `window_size = 0` construction does not fail;
it succeeds and produces formula strings (a degenerate mean `() / 0`, a
degenerate ratio, and the full symbolic CWV expression). -/
theorem claim_C1_counterexample :
    (init 0 "B10" "B11").mean_ti_expression = "() / 0" ∧
    (init 0 "B10" "B11").ratio_ji_expression = " / " ∧
    (init 0 "B10" "B11").column_water_vapor_expression =
      "(-9.674) + (0.653) * (Ratio_ji) + (9.087) * (Ratio_ji)^2" :=
  ⟨rfl, rfl, rfl⟩

/-- Claim C1, amended: for every `window_size ≤ 0`, construction succeeds with
an empty offset set and produces degenerate formula strings (mean `() / 0`,
ratio `" / "`); no configuration error is raised. -/
theorem claim_C1_amended : ∀ ws : Int, ws ≤ 0 → ∀ ti tj : String,
    (init ws ti tj).adjacent_pixels = [] ∧
    (init ws ti tj).mean_ti_expression = "() / 0" ∧
    (init ws ti tj).ratio_ji_expression = " / " := by
  intro ws hws ti tj
  have h : ws.toNat = 0 := Int.toNat_of_nonpos hws
  simp [init, derive_adjacent_pixels, derive_modifiers, xrange, h,
    mean_tirs_expression, ratio_ji_expr, numerator_for_ratio,
    denominator_for_ratio, pyJoin]
  rfl

/-- Witness for the amended claim C1 at `window_size = 0`. -/
theorem claim_C1_amended_witness :
    (0 : Int) ≤ 0 ∧
    ((init 0 "B10" "B11").adjacent_pixels = [] ∧
     (init 0 "B10" "B11").mean_ti_expression = "() / 0" ∧
     (init 0 "B10" "B11").ratio_ji_expression = " / ") :=
  ⟨le_refl 0, claim_C1_amended 0 (le_refl 0) "B10" "B11"⟩

/-- Claim C4 counterexample: for window size 1 with bands `B10`, `B11` and the
dummy mean placeholders, the ratio numerator is not the claimed string with
offset token `[0,0]`: the offsets for a 1×1 window are `(-1, -1)` and Python
renders them as `[-1, -1]` with a space. -/
theorem claim_C4_counterexample :
    numerator_for_ratio (init 1 "B10" "B11").modifiers "Mean_Ti" "Mean_Tj"
      ≠ "(B10[0,0] - Mean_Ti) * (B11[0,0] - Mean_Tj)" := by decide

/-- Claim C4, amended: for window size 1 with bands `B10`, `B11` and mean
placeholders `Mean_Ti`, `Mean_Tj`, the ratio numerator is exactly
`(B10[-1, -1] - Mean_Ti) * (B11[-1, -1] - Mean_Tj)`. -/
theorem claim_C4_amended :
    numerator_for_ratio (init 1 "B10" "B11").modifiers "Mean_Ti" "Mean_Tj"
      = "(B10[-1, -1] - Mean_Ti) * (B11[-1, -1] - Mean_Tj)" := rfl

/-- Claim C6 counterexample: with an empty band identifier, construction does
not fail; the full ratio expression is produced, containing the bare offset
tokens where the identifier would stand. -/
theorem claim_C6_counterexample :
    (init 1 "" "B11").modifiers_ti = ["[-1, -1]"] ∧
    (init 1 "" "B11").ratio_ji_expression =
      "([-1, -1] - Mean_Ti) * (B11[-1, -1] - Mean_Tj) / ([-1, -1] - Mean_Ti)^2" :=
  ⟨rfl, rfl⟩

/-- Claim C6, amended: construction performs no identifier validation: for any
band identifiers, the empty string included, the neighbor references are the
plain concatenation of the identifier with the offset token, and the formula
cascade is produced in full. -/
theorem claim_C6_amended :
    (∀ ti tj : String, (init 1 ti tj).modifiers_ti = [ti ++ "[-1, -1]"]) ∧
    (init 1 "" "B11").mean_ti_expression = "([-1, -1]) / 1" :=
  ⟨fun _ _ => rfl, rfl⟩

/-- Claim C8: the symbolic CWV expression is exactly
`(-9.674) + (0.653) * (Ratio_ji) + (9.087) * (Ratio_ji)^2` for every builder
instance, regardless of window size and band identifiers. -/
theorem claim_C8_cwv_expression : ∀ (ws : Int) (ti tj : String),
    (init ws ti tj).column_water_vapor_expression =
      "(-9.674) + (0.653) * (Ratio_ji) + (9.087) * (Ratio_ji)^2" :=
  fun _ _ _ => rfl

/-- Claim C10: passing the empty string for a mean placeholder triggers the
same default substitution as the fixed names `Ti_mean` / `Tj_mean`: the empty
mean never appears in the output and never causes an error. -/
theorem claim_C10_falsy_default : ∀ (mods : List (String × String)) (mods_ti : List String),
    numerator_for_ratio mods "" "" = numerator_for_ratio mods "Ti_mean" "Tj_mean" ∧
    denominator_for_ratio mods_ti "" = denominator_for_ratio mods_ti "Ti_mean" :=
  fun _ _ => ⟨rfl, rfl⟩

end CWV

set_option maxRecDepth 8192

namespace CWV

/-- Claim C2, code evaluation at the failing input (window size 2, bands
`B10`, `B11`): the ratio expression is the bare concatenation
`numerator ++ " / " ++ denominator` with no parentheses around either group,
it differs from the parenthesized `(numerator) / (denominator)` form, and the
division sign lands directly between the numerator's last plus-joined term and
the denominator's first term. -/
theorem claim_C2_code_eval :
    (init 2 "B10" "B11").ratio_ji_expression =
      numerator_for_ratio (init 2 "B10" "B11").modifiers "Mean_Ti" "Mean_Tj"
        ++ " / "
        ++ denominator_for_ratio (init 2 "B10" "B11").modifiers_ti "Mean_Ti" ∧
    (init 2 "B10" "B11").ratio_ji_expression ≠
      "(" ++ numerator_for_ratio (init 2 "B10" "B11").modifiers "Mean_Ti" "Mean_Tj"
        ++ ") / ("
        ++ denominator_for_ratio (init 2 "B10" "B11").modifiers_ti "Mean_Ti" ++ ")" ∧
    countOccs "(B11[0, 0] - Mean_Tj) / (B10[-1, -1] - Mean_Ti)^2 + "
      (init 2 "B10" "B11").ratio_ji_expression = 1 :=
  ⟨rfl, by decide, rfl⟩

/-- Claim C5, code evaluation at the failing input (window size 1, bands
`B10`, `B11`): in the `eval(...)` output the names `ti_mean` and `tj_mean`
occur exactly once each (their bindings) and are never referenced afterwards,
while the full mean sub-expression texts `(B10[-1, -1]) / 1` and
`(B11[-1, -1]) / 1` are inlined 3 and 2 times respectively, so an O(N) text
block does appear more than once. -/
theorem claim_C5_code_eval :
    countOccs "ti_mean" (build_cwv_mapcalc 1 "B10" "B11") = 1 ∧
    countOccs "tj_mean" (build_cwv_mapcalc 1 "B10" "B11") = 1 ∧
    countOccs "(B10[-1, -1]) / 1" (build_cwv_mapcalc 1 "B10" "B11") = 3 ∧
    countOccs "(B11[-1, -1]) / 1" (build_cwv_mapcalc 1 "B10" "B11") = 2 :=
  ⟨rfl, rfl, rfl, rfl⟩

end CWV

namespace CWV

/-- The offset-component interval claimed by the spec for window size `n`,
`[-⌊n/2⌋, ⌈n/2⌉)`, as a decidable bound check (for positive `n` the integer
divisions `n / 2` and `(n + 1) / 2` are the claimed floor and ceiling). -/
def inClaimedRange (n x : Int) : Bool :=
  decide (-(n / 2) ≤ x) && decide (x < (n + 1) / 2)

/-- Claim C3 counterexample: for window size 1 the claimed interval is
`[0, 1)`, but the generated offset is `(-1, -1)`. -/
theorem claim_C3_counterexample :
    ((derive_adjacent_pixels 1 1).all
      (fun p => inClaimedRange 1 p.1 && inClaimedRange 1 p.2)) = false := by
  decide

/-- Claim C3, amended: for every positive window size `n`, each component of
every generated offset lies in the half-open interval `[-1, n - 1)`. -/
theorem claim_C3_amended : ∀ n : Int, 0 < n →
    ∀ p ∈ derive_adjacent_pixels n n,
      (-1 ≤ p.1 ∧ p.1 < n - 1) ∧ (-1 ≤ p.2 ∧ p.2 < n - 1) := by
  intro n hn p hp
  rw [show derive_adjacent_pixels n n
        = (xrange n).flatMap (fun col => (xrange n).map (fun row => (col - 1, row - 1)))
      from rfl, List.mem_flatMap] at hp
  obtain ⟨col, hcol, hp⟩ := hp
  obtain ⟨row, hrow, rfl⟩ := List.mem_map.mp hp
  obtain ⟨c, hc, rfl⟩ := List.mem_map.mp
    (show col ∈ (List.range n.toNat).map (fun k : Nat => (k : Int)) from hcol)
  obtain ⟨r, hr, rfl⟩ := List.mem_map.mp
    (show row ∈ (List.range n.toNat).map (fun k : Nat => (k : Int)) from hrow)
  rw [List.mem_range] at hc hr
  dsimp only
  refine ⟨⟨?_, ?_⟩, ?_, ?_⟩ <;> omega

/-- Witness for the amended claim C3 at window size 3 and offset `(-1, -1)`. -/
theorem claim_C3_amended_witness :
    (0 : Int) < 3 ∧ ((-1 : Int), (-1 : Int)) ∈ derive_adjacent_pixels 3 3 ∧
    ((-1 ≤ (-1 : Int) ∧ (-1 : Int) < 3 - 1) ∧ (-1 ≤ (-1 : Int) ∧ (-1 : Int) < 3 - 1)) :=
  ⟨by decide, by decide,
    claim_C3_amended 3 (by decide) ((-1 : Int), (-1 : Int)) (by decide)⟩

/-- Flattening a rectangular nested `range` iteration: the outer-`c`,
inner-`r` double loop enumerates `g (k / b) (k % b)` for `k` in `[0, a*b)`. -/
theorem range_bind_range_map {α : Type} (g : Nat → Nat → α) :
    ∀ a b : Nat,
      (List.range a).flatMap (fun c => (List.range b).map (g c))
        = (List.range (a * b)).map (fun k => g (k / b) (k % b)) := by
  intro a
  induction a with
  | zero => intro b; simp
  | succ a ih =>
    intro b
    rw [List.range_succ, Nat.succ_mul, List.range_add, List.flatMap_append,
      List.map_append, List.map_map, ← ih b]
    simp only [List.flatMap_cons, List.flatMap_nil, List.append_nil]
    congr 1
    refine List.map_congr_left ?_
    intro j hj
    have hjb : j < b := List.mem_range.mp hj
    have hb : 0 < b := Nat.zero_lt_of_lt hjb
    have hdiv : (a * b + j) / b = a := by
      rw [Nat.mul_comm, Nat.mul_add_div hb, Nat.div_eq_of_lt hjb, Nat.add_zero]
    have hmod : (a * b + j) % b = j := by
      rw [Nat.mul_comm, Nat.mul_add_mod, Nat.mod_eq_of_lt hjb]
    simp only [Function.comp]
    rw [hdiv, hmod]

end CWV

namespace CWV

/-- Claim C7: for every positive window size `n`, the offset list has exactly
`n²` elements, and its `k`-th element is `(k / n - 1, k % n - 1)` — precisely
the `(col - 1, row - 1)` generation with `col` as the outer loop over `[0, n)`
and `row` as the inner loop over `[0, n)`, in that exact order. -/
theorem claim_C7_offsets : ∀ n : Int, 0 < n →
    (derive_adjacent_pixels n n).length = n.toNat ^ 2 ∧
    derive_adjacent_pixels n n
      = (List.range (n.toNat * n.toNat)).map
          (fun k => (((k / n.toNat : Nat) : Int) - 1, ((k % n.toNat : Nat) : Int) - 1)) := by
  intro n _
  have h : derive_adjacent_pixels n n
      = (List.range n.toNat).flatMap
          (fun c => (List.range n.toNat).map
            (fun r : Nat => ((c : Int) - 1, (r : Int) - 1))) := by
    simp only [derive_adjacent_pixels, xrange, List.flatMap_map, List.map_map]
    rfl
  rw [h, range_bind_range_map (fun c r => ((c : Int) - 1, (r : Int) - 1))]
  constructor
  · rw [List.length_map, List.length_range, Nat.pow_two]
  · rfl

/-- Witness for claim C7 at window size 3. -/
theorem claim_C7_offsets_witness :
    (0 : Int) < 3 ∧
    ((derive_adjacent_pixels 3 3).length = (3 : Int).toNat ^ 2 ∧
     derive_adjacent_pixels 3 3
       = (List.range ((3 : Int).toNat * (3 : Int).toNat)).map
           (fun k => (((k / (3 : Int).toNat : Nat) : Int) - 1,
                      ((k % (3 : Int).toNat : Nat) : Int) - 1))) :=
  ⟨by decide, claim_C7_offsets 3 (by decide)⟩

/-- Accumulator shift for Python-style string joins: prepending `a` to the
accumulator factors out of the fold. -/
theorem foldl_append_join (sep : String) :
    ∀ (xs : List String) (a b : String),
      xs.foldl (fun acc x => acc ++ sep ++ x) (a ++ b)
        = a ++ xs.foldl (fun acc x => acc ++ sep ++ x) b := by
  intro xs
  induction xs with
  | nil => intro a b; rfl
  | cons y ys ih =>
    intro a b
    show ys.foldl (fun acc x => acc ++ sep ++ x) (a ++ b ++ sep ++ y)
        = a ++ ys.foldl (fun acc x => acc ++ sep ++ x) (b ++ sep ++ y)
    rw [String.append_assoc a b sep, String.append_assoc a (b ++ sep) y,
      ih a ((b ++ sep) ++ y)]

/-- Python's join on a list of two or more terms peels off the head term. -/
theorem pyJoin_cons_cons (sep t x : String) (xs : List String) :
    pyJoin sep (t :: x :: xs) = t ++ sep ++ pyJoin sep (x :: xs) := by
  show xs.foldl (fun acc y => acc ++ sep ++ y) (t ++ sep ++ x)
      = t ++ sep ++ xs.foldl (fun acc y => acc ++ sep ++ y) x
  rw [String.append_assoc t sep x, foldl_append_join sep xs t (sep ++ x),
    foldl_append_join sep xs sep x, ← String.append_assoc]

/-- The spec's sum of terms `t1 + t2 + ... + tN`, written by direct recursion
on the term list, for comparison with the source's Python join. -/
def sumJoinSpec : List String → String
  | [] => ""
  | [t] => t
  | t :: x :: xs => t ++ " + " ++ sumJoinSpec (x :: xs)

/-- The source's Python join with separator `" + "` agrees with the spec's
recursively written sum of terms. -/
theorem pyJoin_eq_sumJoinSpec : ∀ l : List String, pyJoin " + " l = sumJoinSpec l
  | [] => rfl
  | [_] => rfl
  | t :: x :: xs => by
    rw [pyJoin_cons_cons " + " t x xs, pyJoin_eq_sumJoinSpec (x :: xs)]
    rfl

/-- Claim C9: for every non-empty term sequence, the mean expression is
`(t1 + t2 + ... + tN) / N` with the terms joined in input order and divided by
the literal integer count; for the single term `A[0,0]` it is exactly
`(A[0,0]) / 1`. -/
theorem claim_C9_mean_expression :
    (∀ (t : String) (ts : List String),
      mean_tirs_expression (t :: ts)
        = "(" ++ sumJoinSpec (t :: ts) ++ ") / " ++ toString (ts.length + 1)) ∧
    mean_tirs_expression ["A[0,0]"] = "(A[0,0]) / 1" := by
  refine ⟨fun t ts => ?_, rfl⟩
  show "(" ++ pyJoin " + " (t :: ts) ++ ") / " ++ toString (t :: ts).length = _
  rw [pyJoin_eq_sumJoinSpec]
  rfl

end CWV
